import Mathlib

/-!
Shallow embedding of the Smart Bookmark App
(repository ankitkumarm9546-coder/bookmarkapp).

Sources embedded here:
- src/components/bookmark-manager.tsx — the `BookmarkManager` client
  component: its state fields, the `handleAdd`, `handleDelete`,
  `loadBookmarks` handlers, the `setDeleteTarget` request/cancel flow, the
  `sortedBookmarks`/`filteredBookmarks` derivation, and the
  BroadcastChannel naming in the realtime `useEffect` and `notifyTabs`.
- src/unnamed/part_000 — supabase/schema.sql: the `bookmarks` table, its
  row-level-security policies (select / insert / delete scoped by
  `auth.uid() = user_id`) and the `set_bookmark_user_id` trigger that
  overwrites `user_id` with the caller identity on insert.

Conventions of the embedding:
- React `useState` fields become one explicit `ComponentState` record;
  each async handler becomes a pure function from the state (plus the
  outcome of its single awaited store call, passed in as an argument) to
  the successor state together with the list of externally visible
  effects it issued, in program order.
- The browser's WHATWG `new URL(...)` constructor is an external
  platform facility; it is passed in as an abstract parameter
  `parseUrl : String → Option ParsedUrl` (`none` models the constructor
  throwing). Theorems quantify over every such oracle.
- Strings compare by their character sequences; JavaScript
  `a.localeCompare(b)` on the ISO `created_at` timestamps and titles is
  modelled by lexicographic string order, and `Array.prototype.sort`
  (stable per ES2019) by `List.mergeSort`.
-/

namespace BookmarkApp

/-- Bookmark record as held by the client (bookmark-manager.tsx, `type Bookmark`):
`id`, `title`, `url`, `created_at`, all strings as delivered by the store. -/
structure Bookmark where
  id : String
  title : String
  url : String
  created_at : String
deriving DecidableEq, Repr

/-- Row of `public.bookmarks` as persisted by the store
(src/unnamed/part_000): the client columns plus the server-side
`user_id` owner column. -/
structure Row where
  id : String
  user_id : String
  title : String
  url : String
  created_at : String
deriving DecidableEq, Repr

/-- Sort modes of the `sortBy` select control: "latest" | "oldest" | "az". -/
inductive SortBy where
  | latest
  | oldest
  | az
deriving DecidableEq, Repr

/-- Result of the platform URL constructor on a success: the `protocol`
property (scheme with trailing colon, e.g. "https:") and the `toString()`
serialization. -/
structure ParsedUrl where
  protocol : String
  serialized : String
deriving DecidableEq, Repr

/-- Store commands a handler can issue over the supabase client:
`select` (loadBookmarks), `insert` with its literal payload of
column/value pairs (handleAdd), `delete ... .eq("id", _)` (handleDelete). -/
inductive StoreCmd where
  | select (table : String)
  | insert (table : String) (payload : List (String × String))
  | delete (table : String) (idEq : String)
deriving DecidableEq, Repr

/-- Externally visible effects of a handler, in program order: a store
command, a `loadBookmarks()` reload trigger, or a `notifyTabs()`
broadcast. -/
inductive Effect where
  | store (cmd : StoreCmd)
  | reload
  | notify
deriving DecidableEq, Repr

/-- The `useState` fields of `BookmarkManager` that the handlers touch. -/
structure ComponentState where
  bookmarks : List Bookmark
  title : String
  url : String
  search : String
  sortBy : SortBy
  loading : Bool
  error : Option String
  deleteTarget : Option Bookmark
  deleteLoading : Bool
deriving DecidableEq, Repr

/-- JavaScript `String.prototype.trim`: strip whitespace from both ends,
written over the character list so it evaluates inside the kernel. -/
def jsTrim (s : String) : String :=
  String.mk (((s.data.dropWhile Char.isWhitespace).reverse.dropWhile
    Char.isWhitespace).reverse)

/-- JavaScript `String.prototype.toLowerCase` (simple case mapping),
written over the character list so it evaluates inside the kernel. -/
def jsToLower (s : String) : String :=
  String.mk (s.data.map Char.toLower)

/-- `handleAdd` (bookmark-manager.tsx lines 383–423). `parseUrl` is the
platform URL-constructor oracle; `insertResult` is the `error` field of
the awaited insert response (`some msg` on store rejection), consulted
only when the insert is actually issued. Returns the successor state and
the effects issued, in order. -/
def handleAdd (parseUrl : String → Option ParsedUrl) (insertResult : Option String)
    (s : ComponentState) : ComponentState × List Effect :=
  let s0 := { s with error := none }
  if jsTrim s0.title = "" ∨ jsTrim s0.url = "" then
    ({ s0 with error := some "Title and URL are required." }, [])
  else
    match parseUrl (jsTrim s0.url) with
    | none => ({ s0 with error := some "Please enter a valid URL." }, [])
    | some parsedUrl =>
      if parsedUrl.protocol ≠ "http:" ∧ parsedUrl.protocol ≠ "https:" then
        ({ s0 with error := some "URL must start with http:// or https://" }, [])
      else
        let payload := [("title", jsTrim s0.title), ("url", parsedUrl.serialized)]
        match insertResult with
        | some msg =>
          ({ s0 with loading := false, error := some msg },
            [Effect.store (StoreCmd.insert "bookmarks" payload)])
        | none =>
          ({ s0 with loading := false, title := "", url := "" },
            [Effect.store (StoreCmd.insert "bookmarks" payload), Effect.reload, Effect.notify])

/-- `handleDelete` (bookmark-manager.tsx lines 425–441): no-op without a
`deleteTarget`; otherwise issues the delete command for the target's id,
and only on success filters the target out of `bookmarks`, clears
`deleteTarget` and notifies sibling tabs. `deleteResult` is the `error`
field of the awaited delete response. -/
def handleDelete (deleteResult : Option String) (s : ComponentState) :
    ComponentState × List Effect :=
  match s.deleteTarget with
  | none => (s, [])
  | some target =>
    let s0 := { s with error := none, deleteLoading := false }
    match deleteResult with
    | some msg =>
      ({ s0 with error := some msg },
        [Effect.store (StoreCmd.delete "bookmarks" target.id)])
    | none =>
      ({ s0 with
          bookmarks := s0.bookmarks.filter (fun b => b.id ≠ target.id),
          deleteTarget := none },
        [Effect.store (StoreCmd.delete "bookmarks" target.id), Effect.notify])

/-- `loadBookmarks` (bookmark-manager.tsx lines 292–306): no-op without a
`userId`; otherwise issues the select and either surfaces the fetch error
(leaving `bookmarks` untouched) or replaces `bookmarks` wholesale with
`data ?? []`. `fetchResult` is the awaited response: `Except.error msg`
models a fetch error, `Except.ok data` a success whose `data` may be
null (`none`). -/
def loadBookmarks (userId : Option String)
    (fetchResult : Except String (Option (List Bookmark)))
    (s : ComponentState) : ComponentState × List Effect :=
  match userId with
  | none => (s, [])
  | some _ =>
    match fetchResult with
    | Except.error msg =>
      ({ s with error := some msg }, [Effect.store (StoreCmd.select "bookmarks")])
    | Except.ok data =>
      ({ s with bookmarks := data.getD [] }, [Effect.store (StoreCmd.select "bookmarks")])

/-- Delete-button handler `onClick={() => setDeleteTarget(bookmark)}`
(line 629): records the pending target; touches nothing else and issues
no effect. -/
def requestDelete (b : Bookmark) (s : ComponentState) : ComponentState × List Effect :=
  ({ s with deleteTarget := some b }, [])

/-- Cancel-button handler `onClick={() => setDeleteTarget(null)}`
(line 659): clears the pending target; touches nothing else and issues
no effect. -/
def cancelDelete (s : ComponentState) : ComponentState × List Effect :=
  ({ s with deleteTarget := none }, [])

/-- Name of the BroadcastChannel the realtime `useEffect` opens and
listens on for owner `u` (line 334). -/
def tabChannelName (u : String) : String :=
  "bookmarks-sync-" ++ u

/-- Channel names `notifyTabs` (lines 346–352) posts a change message on:
nothing without a `userId` or when the BroadcastChannel primitive is
unavailable, otherwise exactly one post on the owner-keyed channel. -/
def notifyTabs (userId : Option String) (bcAvailable : Bool) : List String :=
  match userId with
  | none => []
  | some u => if bcAvailable then ["bookmarks-sync-" ++ u] else []

/-- JavaScript `haystack.includes(needle)`: substring containment,
modelled as list-infix on the character sequences. -/
def jsIncludes (haystack needle : String) : Bool :=
  decide (needle.data <:+: haystack.data)

/-- Comparator of `sortedBookmarks` (lines 459–463) as a boolean
"less-or-equal", mode by mode. -/
def sortLe (mode : SortBy) (a b : Bookmark) : Bool :=
  match mode with
  | SortBy.oldest => decide (a.created_at ≤ b.created_at)
  | SortBy.az => decide (a.title ≤ b.title)
  | SortBy.latest => decide (b.created_at ≤ a.created_at)

/-- `sortedBookmarks` (lines 459–463): a sorted copy of `bookmarks`
(the source spreads into a fresh array first, so the input is not
mutated), by the mode's comparator. -/
def sortedBookmarks (bookmarks : List Bookmark) (mode : SortBy) : List Bookmark :=
  bookmarks.mergeSort (sortLe mode)

/-- Filter predicate of `filteredBookmarks` (lines 465–469): the query is
the trimmed, lowercased search text; an empty query keeps everything,
otherwise a bookmark is kept when its lowercased title or url contains
the query. -/
def matchesQuery (search : String) (b : Bookmark) : Bool :=
  let query := jsToLower (jsTrim search)
  if query = "" then true
  else jsIncludes (jsToLower b.title) query || jsIncludes (jsToLower b.url) query

/-- `filteredBookmarks` (lines 465–469): the sorted list filtered by the
search predicate; this is the list the presentation layer renders. -/
def filteredBookmarks (bookmarks : List Bookmark) (search : String) (mode : SortBy) :
    List Bookmark :=
  (sortedBookmarks bookmarks mode).filter (matchesQuery search)

/-- Store-side select (src/unnamed/part_000 policy "Users can read own
bookmarks", `using (auth.uid() = user_id)`, together with the client's
`.order("created_at", ascending false)`): the caller sees exactly their
own rows, ordered by creation time descending. -/
def storeSelect (rows : List Row) (caller : String) : List Bookmark :=
  ((rows.filter (fun r => r.user_id = caller)).map
      (fun r => Bookmark.mk r.id r.title r.url r.created_at)).mergeSort
    (fun a b => decide (b.created_at ≤ a.created_at))

/-- Store-side delete (src/unnamed/part_000 policy "Users can delete own
bookmarks", `using (auth.uid() = user_id)`): PostgreSQL row-level
security makes rows failing the policy invisible to the statement, so a
DELETE removes exactly the rows matching both the id and the caller, and
skipped rows raise no error — the response error is always `none`. -/
def storeDelete (rows : List Row) (caller : String) (idEq : String) :
    List Row × Option String :=
  (rows.filter (fun r => ¬(r.id = idEq ∧ r.user_id = caller)), none)

/-- Store-side insert (src/unnamed/part_000 trigger
`set_bookmark_user_id_trigger`: `new.user_id := auth.uid()` before every
insert): the stored row takes `title` and `url` from the payload but its
`user_id` is the caller identity, whatever the payload carried. -/
def storeInsert (rows : List Row) (caller : String) (newId : String) (now : String)
    (payload : List (String × String)) : List Row :=
  rows ++ [{ id := newId, user_id := caller,
             title := ((payload.lookup "title").getD ""),
             url := ((payload.lookup "url").getD ""),
             created_at := now }]

/-- Spec-side matching predicate (spec section 4.1, `view`): "`title` or
`url` contains `searchQuery` case-insensitively", for one text field —
stated from the spec's words, to be compared with the code's
`matchesQuery`. -/
def specContainsCI (text query : String) : Bool :=
  jsIncludes (jsToLower text) (jsToLower query)

/-- Concrete URL-constructor oracle used to evaluate theorems on closed
inputs: recognizes two fixed absolute URLs and throws on everything
else. -/
def demoParse (s : String) : Option ParsedUrl :=
  if s = "https://example.com/docs" then
    some (ParsedUrl.mk "https:" "https://example.com/docs")
  else if s = "ftp://example.com" then
    some (ParsedUrl.mk "ftp:" "ftp://example.com")
  else none

theorem sortLe_trans (mode : SortBy) :
    ∀ a b c, sortLe mode a b → sortLe mode b c → sortLe mode a c := by
  intro a b c hab hbc
  cases mode <;> simp only [sortLe, decide_eq_true_eq] at *
  · exact le_trans hbc hab
  · exact le_trans hab hbc
  · exact le_trans hab hbc

theorem sortLe_total (mode : SortBy) : ∀ a b, sortLe mode a b || sortLe mode b a := by
  intro a b
  cases mode <;> simp only [sortLe, Bool.or_eq_true, decide_eq_true_eq] <;> exact le_total _ _

theorem jsIncludes_empty_needle (s : String) : jsIncludes s "" = true := by
  simp [jsIncludes]

theorem matchesQuery_eq_spec (search : String) (b : Bookmark) :
    matchesQuery search b =
      (specContainsCI b.title (jsTrim search) || specContainsCI b.url (jsTrim search)) := by
  simp only [matchesQuery, specContainsCI]
  by_cases hq : jsToLower (jsTrim search) = ""
  · rw [if_pos hq, hq, jsIncludes_empty_needle, jsIncludes_empty_needle]
    rfl
  · rw [if_neg hq]

/-- Concrete component state used to evaluate theorems on closed inputs:
one loaded bookmark which is also the pending delete target. -/
def demoState : ComponentState :=
  { bookmarks := [Bookmark.mk "b1" "Docs" "https://example.com/docs" "2024-01-01T00:00:00Z"],
    title := "", url := "", search := "", sortBy := SortBy.latest,
    loading := false, error := none,
    deleteTarget := some (Bookmark.mk "b1" "Docs" "https://example.com/docs" "2024-01-01T00:00:00Z"),
    deleteLoading := false }

/-- Concrete component state with a filled add form whose url has no
scheme. -/
def demoAddStateBadUrl : ComponentState :=
  { bookmarks := [], title := "Docs", url := "example.com/docs", search := "",
    sortBy := SortBy.latest, loading := false, error := none,
    deleteTarget := none, deleteLoading := false }

/-- Concrete component state with a filled add form whose title and url
carry surrounding whitespace and whose url is a valid https URL. -/
def demoAddStateOk : ComponentState :=
  { bookmarks := [], title := " Docs ", url := " https://example.com/docs ", search := "",
    sortBy := SortBy.latest, loading := false, error := none,
    deleteTarget := none, deleteLoading := false }

/-- C4: for every current items list, when reload's fetch fails the
handler surfaces the fetch error message and leaves `bookmarks` exactly
as they were; and when no identity is present, `loadBookmarks` is a
no-op: no select is issued and the state is returned unchanged. -/
theorem C4_reload_failure_preserves_items (s : ComponentState)
    (fetchResult : Except String (Option (List Bookmark))) (u msg : String) :
    loadBookmarks none fetchResult s = (s, []) ∧
    (loadBookmarks (some u) (Except.error msg) s).1.bookmarks = s.bookmarks ∧
    (loadBookmarks (some u) (Except.error msg) s).1.error = some msg ∧
    (loadBookmarks (some u) (Except.error msg) s).2 = [Effect.store (StoreCmd.select "bookmarks")] :=
  ⟨rfl, rfl, rfl, rfl⟩

/-- C5: every successful reload replaces `bookmarks` wholesale with the
store's answer — the caller's own rows ordered by creation time
descending — regardless of the previous value of `bookmarks`. -/
theorem C5_reload_success_wholesale (s : ComponentState) (u : String) (rows : List Row) :
    (loadBookmarks (some u) (Except.ok (some (storeSelect rows u))) s).1.bookmarks
      = storeSelect rows u ∧
    List.Perm (storeSelect rows u)
      ((rows.filter (fun r => r.user_id = u)).map
        (fun r => Bookmark.mk r.id r.title r.url r.created_at)) ∧
    (storeSelect rows u).Pairwise (fun a b => b.created_at ≤ a.created_at) := by
  refine ⟨rfl, List.mergeSort_perm _ _, ?_⟩
  have hs := @List.sorted_mergeSort Bookmark
    (fun a b : Bookmark => decide (b.created_at ≤ a.created_at))
    (fun a b c hab hbc => by
      simp only [decide_eq_true_eq] at *
      exact le_trans hbc hab)
    (fun a b => by
      simp only [Bool.or_eq_true, decide_eq_true_eq]
      exact le_total _ _)
    ((rows.filter (fun r => r.user_id = u)).map
      (fun r => Bookmark.mk r.id r.title r.url r.created_at))
  exact hs.imp (fun h => of_decide_eq_true h)

/-- C7: for every state and bookmark, `requestDelete` then `cancelDelete`
issues no store command at all (in particular no delete), leaves
`bookmarks` unchanged and ends with the pending target cleared;
`requestDelete` alone issues no effect either. -/
theorem C7_request_cancel_frame (s : ComponentState) (b : Bookmark) :
    (requestDelete b s).2 = [] ∧
    (cancelDelete (requestDelete b s).1).2 = [] ∧
    (cancelDelete (requestDelete b s).1).1.bookmarks = s.bookmarks ∧
    (cancelDelete (requestDelete b s).1).1.deleteTarget = none :=
  ⟨rfl, rfl, rfl, rfl⟩

/-- C10: a whitespace-only search query is treated like the empty query:
the query is trimmed and lowercased before matching, so the derived view
is exactly the sorted list with nothing filtered out, and every item of
the input remains in the view. -/
theorem C10_whitespace_query_matches_all (items : List Bookmark) (search : String)
    (mode : SortBy) (h : jsTrim search = "") :
    filteredBookmarks items search mode = sortedBookmarks items mode ∧
    ∀ b, b ∈ items → b ∈ filteredBookmarks items search mode := by
  have hm : ∀ b, matchesQuery search b = true := by
    intro b
    rw [matchesQuery_eq_spec, h]
    simp only [specContainsCI]
    have h0 : jsToLower "" = "" := rfl
    rw [h0, jsIncludes_empty_needle]
    rfl
  have hfilter : filteredBookmarks items search mode = sortedBookmarks items mode := by
    simp only [filteredBookmarks]
    exact List.filter_eq_self.mpr (fun b _ => hm b)
  refine ⟨hfilter, fun b hb => ?_⟩
  rw [hfilter]
  exact ((List.mergeSort_perm items _).mem_iff).mpr hb

/-- Closed instance of C10: the three-space query leaves a singleton
list exactly as sorted. -/
theorem C10_whitespace_query_matches_all_witness :
    filteredBookmarks [Bookmark.mk "1" "a" "https://a" "t0"] "   " SortBy.latest
      = sortedBookmarks [Bookmark.mk "1" "a" "https://a" "t0"] SortBy.latest :=
  (C10_whitespace_query_matches_all [Bookmark.mk "1" "a" "https://a" "t0"] "   "
    SortBy.latest (by decide)).1

/-- C3 counterexample: with the query " git" (leading space), the view
returns the bookmark titled "github" although neither its title nor its
url contains the query " git" case-insensitively — the code matches
against the trimmed query, so the claim's untrimmed membership condition
does not describe the view. -/
theorem C3_counterexample_padded_query :
    filteredBookmarks [Bookmark.mk "1" "github" "https://x" "t0"] " git" SortBy.latest
      = [Bookmark.mk "1" "github" "https://x" "t0"] ∧
    specContainsCI "github" " git" = false ∧
    specContainsCI "https://x" " git" = false := by
  refine ⟨?_, by decide, by decide⟩
  simp only [filteredBookmarks, sortedBookmarks, List.mergeSort_singleton]
  decide

/-- C3 (amended): the view derivation returns exactly those items whose
lowercased title or url contains the lowercased *trimmed* query (an
empty or whitespace-only query matches all), ordered by the sort mode:
latest = creation time descending, oldest = creation time ascending,
alphabetical = title ascending; the derivation is a pure function by
construction. -/
theorem C3_view_filter_and_order (items : List Bookmark) (search : String) (mode : SortBy) :
    (∀ b, b ∈ filteredBookmarks items search mode ↔
        b ∈ items ∧
          (specContainsCI b.title (jsTrim search) = true ∨
           specContainsCI b.url (jsTrim search) = true)) ∧
    List.Perm (filteredBookmarks items search mode)
      (items.filter (fun b =>
        specContainsCI b.title (jsTrim search) || specContainsCI b.url (jsTrim search))) ∧
    (filteredBookmarks items search SortBy.latest).Pairwise
      (fun a b => b.created_at ≤ a.created_at) ∧
    (filteredBookmarks items search SortBy.oldest).Pairwise
      (fun a b => a.created_at ≤ b.created_at) ∧
    (filteredBookmarks items search SortBy.az).Pairwise
      (fun a b => a.title ≤ b.title) := by
  have hfun : matchesQuery search = fun b =>
      (specContainsCI b.title (jsTrim search) || specContainsCI b.url (jsTrim search)) :=
    funext (matchesQuery_eq_spec search)
  have hperm : ∀ m : SortBy, List.Perm (filteredBookmarks items search m)
      (items.filter (fun b =>
        specContainsCI b.title (jsTrim search) || specContainsCI b.url (jsTrim search))) := by
    intro m
    have h1 : List.Perm (sortedBookmarks items m) items := List.mergeSort_perm items _
    have h2 := h1.filter (matchesQuery search)
    rw [hfun] at h2
    simp only [filteredBookmarks, hfun]
    exact h2
  have hsorted : ∀ m : SortBy,
      (filteredBookmarks items search m).Pairwise (fun a b => sortLe m a b = true) :=
    fun m => (List.sorted_mergeSort (sortLe_trans m) (sortLe_total m) items).sublist
      (List.filter_sublist _)
  refine ⟨?_, hperm mode, ?_, ?_, ?_⟩
  · intro b
    rw [(hperm mode).mem_iff, List.mem_filter]
    simp [Bool.or_eq_true]
  · exact (hsorted SortBy.latest).imp (fun h => of_decide_eq_true h)
  · exact (hsorted SortBy.oldest).imp (fun h => of_decide_eq_true h)
  · exact (hsorted SortBy.az).imp (fun h => of_decide_eq_true h)

/-- C1: whenever the trimmed title is empty, the url does not parse, or
the parsed scheme is neither http nor https, `handleAdd` issues no
effect at all — in particular no store insert — and surfaces one of the
three validation messages. -/
theorem C1_invalid_create_no_insert (parseUrl : String → Option ParsedUrl)
    (insertResult : Option String) (s : ComponentState)
    (h : jsTrim s.title = "" ∨ parseUrl (jsTrim s.url) = none ∨
      ∃ p, parseUrl (jsTrim s.url) = some p ∧ p.protocol ≠ "http:" ∧ p.protocol ≠ "https:") :
    (handleAdd parseUrl insertResult s).2 = [] ∧
    ∃ msg, (handleAdd parseUrl insertResult s).1.error = some msg ∧
      (msg = "Title and URL are required." ∨ msg = "Please enter a valid URL." ∨
       msg = "URL must start with http:// or https://") := by
  simp only [handleAdd]
  split
  next h0 =>
    exact ⟨rfl, "Title and URL are required.", rfl, Or.inl rfl⟩
  next h0 =>
    split
    next hnone =>
      exact ⟨rfl, "Please enter a valid URL.", rfl, Or.inr (Or.inl rfl)⟩
    next p hp =>
      split
      next hbad =>
        exact ⟨rfl, "URL must start with http:// or https://", rfl, Or.inr (Or.inr rfl)⟩
      next hgood =>
        exfalso
        rcases h with ht | hn | ⟨q, hq, hq1, hq2⟩
        · exact h0 (Or.inl ht)
        · rw [hn] at hp
          exact Option.noConfusion hp
        · rw [hq] at hp
          cases hp
          exact hgood ⟨hq1, hq2⟩

/-- Closed instance of C1: adding with the scheme-less url
"example.com/docs" (which the oracle rejects) issues nothing and surfaces
a validation message. -/
theorem C1_invalid_create_no_insert_witness :
    (handleAdd demoParse none demoAddStateBadUrl).2 = [] ∧
    ∃ msg, (handleAdd demoParse none demoAddStateBadUrl).1.error = some msg ∧
      (msg = "Title and URL are required." ∨ msg = "Please enter a valid URL." ∨
       msg = "URL must start with http:// or https://") :=
  C1_invalid_create_no_insert demoParse none demoAddStateBadUrl (Or.inr (Or.inl (by decide)))

/-- C6: for every valid input, the first effect `handleAdd` issues is the
insert carrying exactly the trimmed title and the parsed URL's
serialization; the payload's columns are "title" and "url" only — no
owner column — and the store's insert trigger sets the stored row's
`user_id` to the caller identity whatever the payload carried. -/
theorem C6_insert_payload_fields (parseUrl : String → Option ParsedUrl)
    (insertResult : Option String) (s : ComponentState) (p : ParsedUrl)
    (ht : ¬ jsTrim s.title = "") (hu : ¬ jsTrim s.url = "")
    (hp : parseUrl (jsTrim s.url) = some p)
    (hproto : p.protocol = "http:" ∨ p.protocol = "https:") :
    (handleAdd parseUrl insertResult s).2.head? =
      some (Effect.store (StoreCmd.insert "bookmarks"
        [("title", jsTrim s.title), ("url", p.serialized)])) ∧
    [("title", jsTrim s.title), ("url", p.serialized)].map Prod.fst = ["title", "url"] ∧
    "owner" ∉ [("title", jsTrim s.title), ("url", p.serialized)].map Prod.fst ∧
    "user_id" ∉ [("title", jsTrim s.title), ("url", p.serialized)].map Prod.fst ∧
    (∀ rows caller newId now payload, ∃ r,
      storeInsert rows caller newId now payload = rows ++ [r] ∧ r.user_id = caller) := by
  refine ⟨?_, by simp, by simp, by simp,
    fun rows caller newId now payload => ⟨_, rfl, rfl⟩⟩
  simp only [handleAdd]
  split
  next h0 =>
    exact absurd h0 (by simp [ht, hu])
  next h0 =>
    split
    next hnone =>
      rw [hnone] at hp
      exact Option.noConfusion hp
    next q hq =>
      rw [hq] at hp
      cases hp
      split
      next hbad =>
        rcases hproto with h1 | h1
        · exact absurd h1 hbad.1
        · exact absurd h1 hbad.2
      next hgood =>
        cases insertResult <;> rfl

/-- Closed instance of C6: adding " Docs " / " https://example.com/docs "
issues the insert whose payload carries the trimmed title and the
serialized URL under exactly the columns "title" and "url". -/
theorem C6_insert_payload_fields_witness :
    (handleAdd demoParse none demoAddStateOk).2.head? =
      some (Effect.store (StoreCmd.insert "bookmarks"
        [("title", jsTrim demoAddStateOk.title),
         ("url", (ParsedUrl.mk "https:" "https://example.com/docs").serialized)])) ∧
    [("title", jsTrim demoAddStateOk.title),
     ("url", (ParsedUrl.mk "https:" "https://example.com/docs").serialized)].map Prod.fst
      = ["title", "url"] ∧
    "owner" ∉ [("title", jsTrim demoAddStateOk.title),
      ("url", (ParsedUrl.mk "https:" "https://example.com/docs").serialized)].map Prod.fst ∧
    "user_id" ∉ [("title", jsTrim demoAddStateOk.title),
      ("url", (ParsedUrl.mk "https:" "https://example.com/docs").serialized)].map Prod.fst ∧
    (∀ rows caller newId now payload, ∃ r,
      storeInsert rows caller newId now payload = rows ++ [r] ∧ r.user_id = caller) :=
  C6_insert_payload_fields demoParse none demoAddStateOk
    (ParsedUrl.mk "https:" "https://example.com/docs")
    (by decide) (by decide) (by decide) (Or.inr rfl)

/-- C2 counterexample: caller "u" deleting id "b1", a row owned by "v":
the store's row-level-security delete skips the invisible row, removes
nothing and reports no error — the result error component is `none`, so
the delete does not fail with a StoreError; it is a silent no-op. -/
theorem C2_counterexample_silent_noop :
    storeDelete [Row.mk "b1" "v" "T" "https://t" "t0"] "u" "b1"
      = ([Row.mk "b1" "v" "T" "https://t" "t0"], none) := by
  decide

/-- C2 (amended): a delete for an id the caller does not own is silently
skipped by the store's ownership policy: no row is removed and no error
is returned; the client, seeing success, filters that id out of its
local items, which leaves items unchanged whenever no local item carries
the id — as holds when items mirror the caller's own rows. -/
theorem C2_not_owned_delete_silent (rows : List Row) (caller idEq : String)
    (s : ComponentState) (target : Bookmark)
    (hrows : ∀ r ∈ rows, r.id = idEq → r.user_id ≠ caller)
    (htgt : s.deleteTarget = some target) (hid : target.id = idEq)
    (hlocal : ∀ b ∈ s.bookmarks, b.id ≠ idEq) :
    (storeDelete rows caller idEq).1 = rows ∧
    (storeDelete rows caller idEq).2 = none ∧
    (handleDelete (storeDelete rows caller idEq).2 s).1.bookmarks = s.bookmarks := by
  refine ⟨?_, rfl, ?_⟩
  · simp only [storeDelete]
    refine List.filter_eq_self.mpr (fun r hr => ?_)
    simp only [decide_eq_true_eq]
    intro ⟨h1, h2⟩
    exact hrows r hr h1 h2
  · simp only [storeDelete, handleDelete, htgt]
    refine List.filter_eq_self.mpr (fun b hb => ?_)
    simp only [decide_eq_true_eq, hid]
    exact hlocal b hb

/-- Closed instance of C2 (amended): with one row owned by "v", caller
"u" confirming the delete of pending target "b1" removes no row, gets no
error and keeps the local items list unchanged. -/
theorem C2_not_owned_delete_silent_witness :
    (storeDelete [Row.mk "b1" "v" "T" "https://t" "t0"] "u" "b1").1
      = [Row.mk "b1" "v" "T" "https://t" "t0"] ∧
    (storeDelete [Row.mk "b1" "v" "T" "https://t" "t0"] "u" "b1").2 = none ∧
    (handleDelete (storeDelete [Row.mk "b1" "v" "T" "https://t" "t0"] "u" "b1").2
      { bookmarks := [Bookmark.mk "b2" "Mine" "https://m" "t1"],
        title := "", url := "", search := "", sortBy := SortBy.latest,
        loading := false, error := none,
        deleteTarget := some (Bookmark.mk "b1" "T" "https://t" "t0"),
        deleteLoading := false }).1.bookmarks
      = [Bookmark.mk "b2" "Mine" "https://m" "t1"] :=
  C2_not_owned_delete_silent [Row.mk "b1" "v" "T" "https://t" "t0"] "u" "b1"
    { bookmarks := [Bookmark.mk "b2" "Mine" "https://m" "t1"],
      title := "", url := "", search := "", sortBy := SortBy.latest,
      loading := false, error := none,
      deleteTarget := some (Bookmark.mk "b1" "T" "https://t" "t0"),
      deleteLoading := false }
    (Bookmark.mk "b1" "T" "https://t" "t0")
    (by decide) rfl rfl (by decide)

/-- C8: the broadcast channel a tab of owner `u` opens is named exactly
"bookmarks-sync-" ++ u, `notifyTabs` posts exactly one message on that
same name, and a post made for a different owner `v` is on a channel
whose name differs from owner `u`'s, so it never reaches (and never
triggers a reload in) a tab listening for `u` — BroadcastChannel only
delivers between channels of equal name. -/
theorem C8_channel_name_per_owner (u v : String) :
    tabChannelName u = "bookmarks-sync-" ++ u ∧
    notifyTabs (some u) true = [tabChannelName u] ∧
    notifyTabs (some u) false = [] ∧
    notifyTabs none true = [] ∧
    (v ≠ u → ∀ n ∈ notifyTabs (some v) true, n ≠ tabChannelName u) := by
  refine ⟨rfl, rfl, rfl, rfl, fun hvu n hn => ?_⟩
  simp only [notifyTabs, if_pos, List.mem_singleton] at hn
  subst hn
  intro hc
  apply hvu
  have hd := congrArg String.data hc
  simp only [tabChannelName, String.data_append] at hd
  exact String.ext (List.append_cancel_left hd)

/-- Closed instance of C8: a post for owner "bob" is not on owner
"alice"'s channel. -/
theorem C8_channel_name_per_owner_witness :
    ("bookmarks-sync-" ++ "bob" : String) ≠ tabChannelName "alice" :=
  (C8_channel_name_per_owner "alice" "bob").2.2.2.2 (by decide)
    ("bookmarks-sync-" ++ "bob") (by decide)

/-- C9: when the confirmed delete's store command fails, the pending
target stays set (the dialog stays open), items and the rest of the list
are untouched, the error is surfaced, and no tab notification is
broadcast; the pending target is cleared only on a successful delete. -/
theorem C9_failed_confirm_keeps_pending (s : ComponentState) (target : Bookmark)
    (msg : String) (h : s.deleteTarget = some target) :
    (handleDelete (some msg) s).1.deleteTarget = some target ∧
    (handleDelete (some msg) s).1.bookmarks = s.bookmarks ∧
    (handleDelete (some msg) s).1.error = some msg ∧
    Effect.notify ∉ (handleDelete (some msg) s).2 ∧
    (handleDelete none s).1.deleteTarget = none := by
  simp [handleDelete, h]

/-- Closed instance of C9: a failing delete on the demo state keeps the
pending target, keeps the single item, surfaces the message and sends no
broadcast; a succeeding one clears the target. -/
theorem C9_failed_confirm_keeps_pending_witness :
    (handleDelete (some "permission denied") demoState).1.deleteTarget
      = some (Bookmark.mk "b1" "Docs" "https://example.com/docs" "2024-01-01T00:00:00Z") ∧
    (handleDelete (some "permission denied") demoState).1.bookmarks = demoState.bookmarks ∧
    (handleDelete (some "permission denied") demoState).1.error = some "permission denied" ∧
    Effect.notify ∉ (handleDelete (some "permission denied") demoState).2 ∧
    (handleDelete none demoState).1.deleteTarget = none :=
  C9_failed_confirm_keeps_pending demoState
    (Bookmark.mk "b1" "Docs" "https://example.com/docs" "2024-01-01T00:00:00Z")
    "permission denied" rfl

end BookmarkApp
